import Mathlib

/-!
Shallow embedding of `src/libAvKys/Plugins/MultiSrc/src/ffmpeg/src/audiostream.cpp`
(Webcamoid's FFmpeg audio stream: A/V sync estimator, format/layout negotiation,
resampling and packet assembly).

Doubles are modelled as exact rationals extended with a NaN element (`AkReal`);
C integer division/truncation is modelled with `Int.tdiv` (truncation toward
zero, as in C).  External collaborators (libswresample, the codec) are modelled
by oracles saying whether each fallible call succeeds.
-/

/-- The C macro AV_NOSYNC_THRESHOLD = 10.0 (no AV correction is done if too big error). -/
def AV_NOSYNC_THRESHOLD : ℚ := 10

/-- The C macro SAMPLE_CORRECTION_PERCENT_MAX = 10 (maximum audio speed change to get correct sync). -/
def SAMPLE_CORRECTION_PERCENT_MAX : ℤ := 10

/-- The C macro AUDIO_DIFF_AVG_NB = 20 (number of A-V differences used for the average). -/
def AUDIO_DIFF_AVG_NB : ℤ := 20

/-- A C++ `double` value: either NaN or an exact rational. -/
inductive AkReal where
  | nan : AkReal
  | val : ℚ → AkReal
deriving DecidableEq, Repr

/-- Qt's qIsNaN. -/
def qIsNaN : AkReal → Bool
  | .nan => true
  | .val _ => false

/-- Qt's qAbs on doubles: NaN stays NaN. -/
def akAbs : AkReal → AkReal
  | .nan => .nan
  | .val q => .val |q|

/-- Double subtraction: NaN propagates. -/
def AkReal.sub : AkReal → AkReal → AkReal
  | .val a, .val b => .val (a - b)
  | _, _ => .nan

/-- IEEE `<`: any comparison with NaN is false. -/
def AkReal.ltB : AkReal → AkReal → Bool
  | .val a, .val b => decide (a < b)
  | _, _ => false

/-- IEEE `>=`: any comparison with NaN is false. -/
def AkReal.geB : AkReal → AkReal → Bool
  | .val a, .val b => decide (b ≤ a)
  | _, _ => false

/-- C cast `int(x)` on a (finite) double: truncation toward zero. -/
def truncQ (q : ℚ) : ℤ := q.num.tdiv (q.den : ℤ)

/-- FFmpeg `AVSampleFormat` (the members this file can meet). -/
inductive AVSampleFormat where
  | fmt_none
  | u8 | s16 | s32 | flt | dbl | s64
  | u8p | s16p | s32p | fltp | dblp | s64p
deriving DecidableEq, Repr

/-- FFmpeg `av_get_packed_sample_fmt`: the packed equivalent of a format. -/
def av_get_packed_sample_fmt : AVSampleFormat → AVSampleFormat
  | .u8p => .u8
  | .s16p => .s16
  | .s32p => .s32
  | .fltp => .flt
  | .dblp => .dbl
  | .s64p => .s64
  | f => f

/-- FFmpeg `av_get_bytes_per_sample`. -/
def av_get_bytes_per_sample : AVSampleFormat → ℤ
  | .u8 | .u8p => 1
  | .s16 | .s16p => 2
  | .s32 | .s32p | .flt | .fltp => 4
  | .dbl | .dblp | .s64 | .s64p => 8
  | .fmt_none => 0

/-- The enum AkAudioCaps::SampleFormat (members used here; sfNone is the
default-constructed value SampleFormat_none). -/
inductive AkSampleFormat where
  | sfNone | sfU8 | sfS16 | sfS32 | sfFlt
deriving DecidableEq, Repr

/-- The enum AkAudioCaps::ChannelLayout (members used here; clNone is the
default-constructed value Layout_none). -/
inductive AkChannelLayout where
  | clNone | clMono | clStereo
deriving DecidableEq, Repr

/-- The mask AV_CH_LAYOUT_MONO = AV_CH_FRONT_CENTER = 0x4. -/
def AV_CH_LAYOUT_MONO : ℕ := 4

/-- The mask AV_CH_LAYOUT_STEREO = AV_CH_FRONT_LEFT + AV_CH_FRONT_RIGHT = 0x3. -/
def AV_CH_LAYOUT_STEREO : ℕ := 3

/-- The lookup sampleFormats->contains(f) for the static map
taking U8, S16, S32, FLT to u8, s16, s32, flt. -/
def sampleFormatsContains (f : AVSampleFormat) : Bool :=
  f = .u8 ∨ f = .s16 ∨ f = .s32 ∨ f = .flt

/-- The lookup sampleFormats->value(f) (QMap::value: default-constructed
SampleFormat when the key is absent). -/
def sampleFormatsValue : AVSampleFormat → AkSampleFormat
  | .u8 => .sfU8
  | .s16 => .sfS16
  | .s32 => .sfS32
  | .flt => .sfFlt
  | _ => .sfNone

/-- The lookup channelLayouts->contains(mask) for the static map
taking MONO, STEREO to mono, stereo. -/
def channelLayoutsContains (mask : ℕ) : Bool :=
  mask = AV_CH_LAYOUT_MONO ∨ mask = AV_CH_LAYOUT_STEREO

/-- The lookup channelLayouts->value(mask, deflt). -/
def channelLayoutsValue (mask : ℕ) (deflt : AkChannelLayout) : AkChannelLayout :=
  if mask = AV_CH_LAYOUT_MONO then .clMono
  else if mask = AV_CH_LAYOUT_STEREO then .clStereo
  else deflt

/-- The lookup channelLayouts->key(layout, deflt): first mask mapped to the layout. -/
def channelLayoutsKey (layout : AkChannelLayout) (deflt : ℕ) : ℕ :=
  match layout with
  | .clMono => AV_CH_LAYOUT_MONO
  | .clStereo => AV_CH_LAYOUT_STEREO
  | .clNone => deflt

/-- FFmpeg `av_get_channel_layout_nb_channels`: the population count of the
channel mask (sum of its base-2 digits). -/
def av_get_channel_layout_nb_channels (mask : ℕ) : ℤ :=
  ((Nat.digits 2 mask).sum : ℤ)

/-- A decoded AVFrame as handed to processData; pts = none encodes
AV_NOPTS_VALUE. -/
structure AVFrame where
  pts : Option ℤ
  nb_samples : ℤ
  sample_rate : ℤ
  channel_layout : ℕ
  format : AVSampleFormat
deriving DecidableEq, Repr

/-- The mutable per-stream state of AudioStream:
m_pts (next expected timestamp), the sync-estimator fields
audioDiffCum, audioDiffAvgCoef, audioDiffAvgCount, and the
diagnostic m_clockDiff. -/
structure AudioStreamState where
  m_pts : ℤ
  audioDiffCum : ℚ
  audioDiffAvgCoef : ℚ
  audioDiffAvgCount : ℤ
  m_clockDiff : AkReal
deriving DecidableEq, Repr

/-- The exact value of the IEEE double exp(log(0.01) / AUDIO_DIFF_AVG_NB)
computed by the constructor (0.7943282347242815 as a dyadic rational). -/
def audioDiffAvgCoefVal : ℚ := 1788668170957069 / 2251799813685248

/-- The AudioStream constructor: m_pts = 0, audioDiffCum = 0,
audioDiffAvgCoef = coef, audioDiffAvgCount = 0 (coef is
exp(log(0.01)/20), kept as a parameter; m_clockDiff starts at 0). -/
def AudioStream.mkState (coef : ℚ) : AudioStreamState :=
  { m_pts := 0
    audioDiffCum := 0
    audioDiffAvgCoef := coef
    audioDiffAvgCount := 0
    m_clockDiff := .val 0 }

/-- Success oracles for the external libswresample / libavcodec calls made by
`convert`: `swr_set_compensation`, `swr_alloc_set_opts`,
`avcodec_fill_audio_frame`, `swr_convert_frame`. -/
structure Resampler where
  setCompensationOk : ℤ → ℤ → Bool
  allocOk : Bool
  fillOk : Bool
  convertOk : Bool

/-- A resampler that never fails. -/
def Resampler.allOk : Resampler :=
  { setCompensationOk := fun _ _ => true
    allocOk := true
    fillOk := true
    convertOk := true }

/-- The parameters of the `swr_alloc_set_opts` call. -/
structure SwrConfig where
  outLayout : ℕ
  outFormat : AVSampleFormat
  outRate : ℤ
  inLayout : ℕ
  inFormat : AVSampleFormat
  inRate : ℤ
deriving DecidableEq, Repr

/-- The negotiated `AkAudioCaps` (fields set by `caps()` / `convert`). -/
structure AkAudioCaps where
  isValid : Bool
  format : AkSampleFormat
  bps : ℤ
  channels : ℤ
  rate : ℤ
  layout : AkChannelLayout
  samples : ℤ
  align : Bool
deriving DecidableEq, Repr

/-- An assembled `AkAudioPacket` (converted to `AkPacket` on return). -/
structure AkAudioPacket where
  caps : AkAudioCaps
  pts : ℤ
  timeBase : ℚ
  index : ℤ
  id : ℤ
deriving DecidableEq, Repr

/-- Everything observable about one AudioStream::convert call: the updated
stream state, the clock write (if any), the compensation request passed to
swr_set_compensation (if any), the final value of the local wantedSamples,
the swr_alloc_set_opts configuration (if reached), and the returned packet
(none = the null AkPacket()). -/
structure ConvertOutput where
  state : AudioStreamState
  clockWrite : Option ℚ
  compensation : Option (ℤ × ℤ)
  wantedSamples : ℤ
  swrConfig : Option SwrConfig
  packet : Option AkAudioPacket
deriving Repr

/-- Outcome of the sync-estimator block of convert
(lines 148 to 182 of audiostream.cpp). -/
structure SyncResult where
  cum : ℚ
  count : ℤ
  wanted : ℤ
  comp : Option (ℤ × ℤ)
  compFailed : Bool
deriving Repr

/-- Lines 148 to 182 of AudioStream::convert: update audioDiffCum and
audioDiffAvgCount, possibly compute wantedSamples and issue a
swr_set_compensation request.  The field compFailed reports the early
null-packet return on a rejected request. -/
def syncAudio (s : AudioStreamState) (swr : Resampler) (diff : AkReal)
    (nb rate : ℤ) : SyncResult :=
  if (!qIsNaN diff) && (akAbs diff).ltB (.val AV_NOSYNC_THRESHOLD) then
    match diff with
    | .nan => { cum := 0, count := 0, wanted := nb, comp := none, compFailed := false }
    | .val d =>
      let cum := d + s.audioDiffAvgCoef * s.audioDiffCum
      if s.audioDiffAvgCount < AUDIO_DIFF_AVG_NB then
        -- not enough measures to have a correct estimate
        { cum := cum, count := s.audioDiffAvgCount + 1, wanted := nb,
          comp := none, compFailed := false }
      else
        -- estimate the A-V difference
        let avgDiff := cum * (1 - s.audioDiffAvgCoef)
        let diffThreshold : ℚ := 2 * (nb : ℚ) / (rate : ℚ)
        if |avgDiff| ≥ diffThreshold then
          let wanted0 := nb + truncQ (d * (rate : ℚ))
          let minSamples := (nb * (100 - SAMPLE_CORRECTION_PERCENT_MAX)).tdiv 100
          let maxSamples := (nb * (100 + SAMPLE_CORRECTION_PERCENT_MAX)).tdiv 100
          let wanted := max minSamples (min maxSamples wanted0)
          if wanted ≠ nb then
            { cum := cum, count := s.audioDiffAvgCount, wanted := wanted,
              comp := some (wanted - nb, wanted),
              compFailed := !swr.setCompensationOk (wanted - nb) wanted }
          else
            { cum := cum, count := s.audioDiffAvgCount, wanted := wanted,
              comp := none, compFailed := false }
        else
          { cum := cum, count := s.audioDiffAvgCount, wanted := nb,
            comp := none, compFailed := false }
  else
    -- Too big difference: may be initial PTS errors, so reset A-V filter
    { cum := 0, count := 0, wanted := nb, comp := none, compFailed := false }

/-- The function AudioStream::convert(AVFrame *iFrame).  Here ptsTicks is
iFrame->pts (already repaired by processData), clock is the value read from
globalClock()->clock(), and timeBase, index, id are the stream's fields. -/
def convert (s : AudioStreamState) (swr : Resampler) (clock : AkReal)
    (timeBase : ℚ) (index id : ℤ) (ptsTicks : ℤ) (fr : AVFrame) :
    ConvertOutput :=
  -- Synchronize audio
  let pts : ℚ := (ptsTicks : ℚ) * timeBase
  let diff : AkReal := AkReal.sub (.val pts) clock
  let oSampleRate : ℤ := fr.sample_rate
  let sr := syncAudio s swr diff fr.nb_samples fr.sample_rate
  let s1 := { s with audioDiffCum := sr.cum, audioDiffAvgCount := sr.count }
  if sr.compFailed then
    -- early `return AkPacket()` inside the sync block
    { state := s1, clockWrite := none, compensation := sr.comp,
      wantedSamples := sr.wanted, swrConfig := none, packet := none }
  else
    let clockWrite : Option ℚ :=
      if (akAbs diff).geB (.val AV_NOSYNC_THRESHOLD) then some pts else none
    let s2 := { s1 with m_clockDiff := diff }
    let oLayout : ℕ :=
      if channelLayoutsContains fr.channel_layout then fr.channel_layout
      else AV_CH_LAYOUT_STEREO
    let oChannels := av_get_channel_layout_nb_channels oLayout
    let iFormat := fr.format
    let oFormat0 := av_get_packed_sample_fmt iFormat
    let oFormat := if sampleFormatsContains oFormat0 then oFormat0 else .flt
    let cfg : SwrConfig :=
      { outLayout := oLayout, outFormat := oFormat, outRate := oSampleRate,
        inLayout := fr.channel_layout, inFormat := iFormat,
        inRate := fr.sample_rate }
    if !swr.allocOk then
      { state := s2, clockWrite := clockWrite, compensation := sr.comp,
        wantedSamples := sr.wanted, swrConfig := some cfg, packet := none }
    else if !swr.fillOk then
      { state := s2, clockWrite := clockWrite, compensation := sr.comp,
        wantedSamples := sr.wanted, swrConfig := some cfg, packet := none }
    else if !swr.convertOk then
      { state := s2, clockWrite := clockWrite, compensation := sr.comp,
        wantedSamples := sr.wanted, swrConfig := some cfg, packet := none }
    else
      let packet : AkAudioPacket :=
        { caps :=
            { isValid := true
              format := sampleFormatsValue oFormat
              bps := 8 * av_get_bytes_per_sample oFormat
              channels := oChannels
              rate := fr.sample_rate
              layout := channelLayoutsValue oLayout .clNone
              samples := sr.wanted
              align := false }
          pts := ptsTicks
          timeBase := timeBase
          index := index
          id := id }
      { state := s2, clockWrite := clockWrite, compensation := sr.comp,
        wantedSamples := sr.wanted, swrConfig := some cfg,
        packet := some packet }

/-- Everything observable about one AudioStream::processData call: the
updated state, the payload of the unconditional oStream signal (none
for the null packet), the unconditional frameSent signal, and the clock
write (if any). -/
structure ProcessDataOutput where
  state : AudioStreamState
  oStreamEmitted : Bool
  emitted : Option AkAudioPacket
  frameSent : Bool
  clockWrite : Option ℚ
deriving Repr

/-- The function AudioStream::processData(AVFrame *frame): timestamp repair,
conversion, unconditional emission of oStream and frameSent, and advance of
m_pts to frame->pts + frame->nb_samples. -/
def processData (s : AudioStreamState) (swr : Resampler) (clock : AkReal)
    (timeBase : ℚ) (index id : ℤ) (frame : AVFrame) : ProcessDataOutput :=
  let ptsUsed : ℤ :=
    match frame.pts with
    | some p => p
    | none => s.m_pts
  let co := convert s swr clock timeBase index id ptsUsed frame
  { state := { co.state with m_pts := ptsUsed + frame.nb_samples }
    oStreamEmitted := true
    emitted := co.packet
    frameSent := true
    clockWrite := co.clockWrite }

/-- The function AudioStream::caps(): the negotiated output caps derived from
the codec context's sample_fmt, channel_layout and sample_rate. -/
def AudioStream.caps (sample_fmt : AVSampleFormat) (channel_layout : ℕ)
    (sample_rate : ℤ) : AkAudioCaps :=
  let iFormat := sample_fmt
  let oFormat0 := av_get_packed_sample_fmt iFormat
  let oFormat := if sampleFormatsContains oFormat0 then oFormat0 else .flt
  let layout := channelLayoutsValue channel_layout .clStereo
  let channelLayout := channelLayoutsKey layout AV_CH_LAYOUT_STEREO
  { isValid := true
    format := sampleFormatsValue oFormat
    bps := 8 * av_get_bytes_per_sample oFormat
    channels := av_get_channel_layout_nb_channels channelLayout
    rate := sample_rate
    layout := layout
    samples := 0
    align := false }

set_option maxRecDepth 100000

/-- A 1024-sample, 48 kHz, stereo, s16 frame with timestamp 0 (time base 1),
used by the concrete scenarios. -/
def scenarioFrame : AVFrame :=
  { pts := some 0, nb_samples := 1024, sample_rate := 48000,
    channel_layout := AV_CH_LAYOUT_STEREO, format := .s16 }

/-- One convert call of Scenario C: the clock reads -0.1 s while the frame's
pts is 0 s, so diff = 0.1 s on every frame. -/
def scenarioCStep (s : AudioStreamState) : ConvertOutput :=
  convert s Resampler.allOk (.val (-(1/10))) 1 0 0 0 scenarioFrame

/-- The stream state after n frames of Scenario C, starting from a fresh
state with the constructor's decay coefficient. -/
def scenarioCState : ℕ → AudioStreamState
  | 0 => AudioStream.mkState audioDiffAvgCoefVal
  | n + 1 => (scenarioCStep (scenarioCState n)).state

/-- One convert call of a run with constant diff = -1 s (clock reads 1 s,
pts is 0 s): a sustained one-second lag that drives wantedSamples to the
lower clamp bound. -/
def scenarioDStep (s : AudioStreamState) : ConvertOutput :=
  convert s Resampler.allOk (.val 1) 1 0 0 0 scenarioFrame

/-- The stream state after n frames of the diff = -1 scenario. -/
def scenarioDState : ℕ → AudioStreamState
  | 0 => AudioStream.mkState audioDiffAvgCoefVal
  | n + 1 => (scenarioDStep (scenarioDState n)).state

/-- The resampler oracle in which swr_convert_frame fails and everything
else succeeds. -/
def swrConvertFails : Resampler :=
  { setCompensationOk := fun _ _ => true
    allocOk := true
    fillOk := true
    convertOk := false }

/-- C1, counterexample.  On frame 21 of Scenario C the code clamps
1024 + 4800 to the integer-division bounds 1024*90/100 = 921 and
1024*110/100 = 1126, so wantedSamples is 1126, not the 1127 the claim
states. -/
theorem scenarioC_frame21_wanted_is_1126_not_1127 :
    (scenarioCStep (scenarioCState 20)).wantedSamples = 1126 ∧
      (scenarioCStep (scenarioCState 20)).wantedSamples ≠ 1127 := by
  constructor
  · exact of_decide_eq_true (by with_unfolding_all rfl)
  · intro h
    have h2 : (scenarioCStep (scenarioCState 20)).wantedSamples = 1126 :=
      of_decide_eq_true (by with_unfolding_all rfl)
    rw [h] at h2
    exact absurd h2 (by decide)

/-- C1, amended.  Scenario C: 25 frames with constant diff = 0.1 s,
sampleCount 1024, sampleRate 48000, starting from a fresh SyncState.
Frames 1 through 20 request no compensation and increment
audioDiffAvgCount to n; frames 21 through 25 request compensation for
102 extra samples over 1126, with wantedSamples = 1126 =
qBound(1024*90/100, 1024 + int(0.1*48000), 1024*110/100). -/
theorem scenarioC_behaviour :
    (∀ n < 20, (scenarioCStep (scenarioCState n)).compensation = none ∧
      (scenarioCState (n + 1)).audioDiffAvgCount = (n : ℤ) + 1) ∧
    (∀ n, 20 ≤ n → n < 25 →
      (scenarioCStep (scenarioCState n)).compensation = some (102, 1126) ∧
      (scenarioCStep (scenarioCState n)).wantedSamples = 1126) := by
  constructor
  · exact of_decide_eq_true (by with_unfolding_all rfl)
  · have h : ∀ n < 25, 20 ≤ n →
        (scenarioCStep (scenarioCState n)).compensation = some (102, 1126) ∧
        (scenarioCStep (scenarioCState n)).wantedSamples = 1126 :=
      of_decide_eq_true (by with_unfolding_all rfl)
    intro n h1 h2
    exact h n h2 h1

/-- C1, witness for the amended theorem: frame 1 requests no compensation
and frame 21 requests 102 extra samples over 1126. -/
theorem scenarioC_behaviour_witness :
    (scenarioCStep (scenarioCState 0)).compensation = none ∧
      (scenarioCStep (scenarioCState 20)).compensation = some (102, 1126) :=
  ⟨(scenarioC_behaviour.1 0 (by decide)).1,
   (scenarioC_behaviour.2 20 (by decide) (by decide)).1⟩

theorem convert_wantedSamples_eq (s : AudioStreamState) (swr : Resampler)
    (clock : AkReal) (tb : ℚ) (idx id p : ℤ) (fr : AVFrame) :
    (convert s swr clock tb idx id p fr).wantedSamples =
      (syncAudio s swr (AkReal.sub (.val ((p : ℚ) * tb)) clock)
        fr.nb_samples fr.sample_rate).wanted := by
  unfold convert
  dsimp only
  split <;> [rfl; (split <;> [rfl; (split <;> [rfl; (split <;> rfl)])])]

theorem syncAudio_wanted_bounds (s : AudioStreamState) (swr : Resampler)
    (diff : AkReal) (nb rate : ℤ) (h : 0 ≤ nb) :
    (nb * 90).tdiv 100 ≤ (syncAudio s swr diff nb rate).wanted ∧
      (syncAudio s swr diff nb rate).wanted ≤ (nb * 110).tdiv 100 := by
  have e90 : (nb * 90).tdiv 100 = (nb * 90) / 100 :=
    Int.tdiv_eq_ediv (by positivity) (by norm_num)
  have e110 : (nb * 110).tdiv 100 = (nb * 110) / 100 :=
    Int.tdiv_eq_ediv (by positivity) (by norm_num)
  have hnb : (nb * 90).tdiv 100 ≤ nb ∧ nb ≤ (nb * 110).tdiv 100 := by
    rw [e90, e110]; omega
  unfold syncAudio
  split
  · split
    · exact hnb
    · split
      · exact hnb
      · dsimp only
        split
        · split <;>
          · constructor
            · exact le_max_left _ _
            · refine max_le ?_ (min_le_left _ _)
              rw [(by decide : ((100:ℤ) - SAMPLE_CORRECTION_PERCENT_MAX) = 90),
                  e90, e110]
              omega
        · exact hnb
  · exact hnb

theorem convert_sync_eqs (s : AudioStreamState) (swr : Resampler)
    (clock : AkReal) (tb : ℚ) (idx id p : ℤ) (fr : AVFrame) :
    (convert s swr clock tb idx id p fr).state.audioDiffCum =
      (syncAudio s swr (AkReal.sub (.val ((p : ℚ) * tb)) clock)
        fr.nb_samples fr.sample_rate).cum ∧
    (convert s swr clock tb idx id p fr).state.audioDiffAvgCount =
      (syncAudio s swr (AkReal.sub (.val ((p : ℚ) * tb)) clock)
        fr.nb_samples fr.sample_rate).count ∧
    (convert s swr clock tb idx id p fr).compensation =
      (syncAudio s swr (AkReal.sub (.val ((p : ℚ) * tb)) clock)
        fr.nb_samples fr.sample_rate).comp ∧
    (convert s swr clock tb idx id p fr).clockWrite =
      (if (syncAudio s swr (AkReal.sub (.val ((p : ℚ) * tb)) clock)
            fr.nb_samples fr.sample_rate).compFailed then none
       else if (akAbs (AkReal.sub (.val ((p : ℚ) * tb)) clock)).geB
            (.val AV_NOSYNC_THRESHOLD) then some ((p : ℚ) * tb) else none) ∧
    (convert s swr clock tb idx id p fr).state.m_clockDiff =
      (if (syncAudio s swr (AkReal.sub (.val ((p : ℚ) * tb)) clock)
            fr.nb_samples fr.sample_rate).compFailed then s.m_clockDiff
       else AkReal.sub (.val ((p : ℚ) * tb)) clock) := by
  unfold convert
  dsimp only
  split
  · exact ⟨rfl, rfl, rfl, rfl, rfl⟩
  · split <;> [skip; split <;> [skip; split]] <;> exact ⟨rfl, rfl, rfl, rfl, rfl⟩

theorem syncAudio_nan (s : AudioStreamState) (swr : Resampler) (nb rate : ℤ) :
    syncAudio s swr .nan nb rate =
      { cum := 0, count := 0, wanted := nb, comp := none, compFailed := false } := rfl

theorem syncAudio_big (s : AudioStreamState) (swr : Resampler) (d : ℚ)
    (nb rate : ℤ) (hd : AV_NOSYNC_THRESHOLD ≤ |d|) :
    syncAudio s swr (.val d) nb rate =
      { cum := 0, count := 0, wanted := nb, comp := none, compFailed := false } := by
  unfold syncAudio
  simp [qIsNaN, akAbs, AkReal.ltB, not_lt.mpr hd]

theorem syncAudio_warmup (s : AudioStreamState) (swr : Resampler) (d : ℚ)
    (nb rate : ℤ) (hd : |d| < AV_NOSYNC_THRESHOLD)
    (hc : s.audioDiffAvgCount < AUDIO_DIFF_AVG_NB) :
    syncAudio s swr (.val d) nb rate =
      { cum := d + s.audioDiffAvgCoef * s.audioDiffCum,
        count := s.audioDiffAvgCount + 1, wanted := nb,
        comp := none, compFailed := false } := by
  unfold syncAudio
  simp [qIsNaN, akAbs, AkReal.ltB, hd, hc]

theorem convert_obs (s : AudioStreamState) (swr : Resampler) (clock : AkReal)
    (tb : ℚ) (idx id p : ℤ) (fr : AVFrame) :
    (convert s swr clock tb idx id p fr).swrConfig.elim True (fun cfg =>
      cfg.outRate = fr.sample_rate ∧ cfg.inRate = fr.sample_rate ∧
      cfg.outFormat = (if sampleFormatsContains (av_get_packed_sample_fmt fr.format)
        then av_get_packed_sample_fmt fr.format else .flt) ∧
      cfg.outLayout = (if channelLayoutsContains fr.channel_layout
        then fr.channel_layout else AV_CH_LAYOUT_STEREO) ∧
      cfg.inFormat = fr.format ∧ cfg.inLayout = fr.channel_layout) ∧
    (convert s swr clock tb idx id p fr).packet.elim True (fun pk =>
      pk.pts = p ∧ pk.timeBase = tb ∧ pk.index = idx ∧ pk.id = id ∧
      pk.caps.rate = fr.sample_rate ∧
      pk.caps.samples = (convert s swr clock tb idx id p fr).wantedSamples ∧
      pk.caps.format = sampleFormatsValue
        (if sampleFormatsContains (av_get_packed_sample_fmt fr.format)
          then av_get_packed_sample_fmt fr.format else .flt) ∧
      pk.caps.layout = channelLayoutsValue
        (if channelLayoutsContains fr.channel_layout
          then fr.channel_layout else AV_CH_LAYOUT_STEREO) .clNone) := by
  unfold convert
  dsimp only
  split
  · exact ⟨trivial, trivial⟩
  · split
    · exact ⟨⟨rfl, rfl, rfl, rfl, rfl, rfl⟩, trivial⟩
    · split
      · exact ⟨⟨rfl, rfl, rfl, rfl, rfl, rfl⟩, trivial⟩
      · split
        · exact ⟨⟨rfl, rfl, rfl, rfl, rfl, rfl⟩, trivial⟩
        · exact ⟨⟨rfl, rfl, rfl, rfl, rfl, rfl⟩,
                 ⟨rfl, rfl, rfl, rfl, rfl, rfl, rfl, rfl⟩⟩

theorem caps_layout_eq (cl : ℕ) (fmt : AVSampleFormat) (rate : ℤ) :
    (AudioStream.caps fmt cl rate).layout =
      (if channelLayoutsContains cl then channelLayoutsValue cl .clNone
       else .clStereo) := by
  unfold AudioStream.caps channelLayoutsValue channelLayoutsContains
  dsimp only
  by_cases h4 : cl = AV_CH_LAYOUT_MONO
  · simp [h4]
  · by_cases h3 : cl = AV_CH_LAYOUT_STEREO <;> simp [h3, h4]

/-- C2, counterexample.  After 20 frames of constant diff = -1 s, frame 21
clamps wantedSamples to 1024*90/100 = 921, and 921 is below
0.9*1024 = 921.6, refuting the exact lower bound of the claim. -/
theorem wantedSamples_undershoots_ninety_percent :
    (scenarioDStep (scenarioDState 20)).wantedSamples = 921 ∧
      ¬((9 : ℚ) / 10 * 1024 ≤ ((scenarioDStep (scenarioDState 20)).wantedSamples : ℚ)) := by
  have h : (scenarioDStep (scenarioDState 20)).wantedSamples = 921 :=
    of_decide_eq_true (by with_unfolding_all rfl)
  refine ⟨h, ?_⟩
  rw [h]
  norm_num

/-- C2, amended.  For every frame with a nonnegative sample count, the
wantedSamples computed by convert lies within the code's integer-division
clamp bounds: nb*90/100 <= wantedSamples <= nb*110/100 (C truncating
division), whether or not compensation is requested.  The exact rational
bound 0.9*nb can be undershot by a fraction of a sample. -/
theorem wantedSamples_clamp_bounds (s : AudioStreamState) (swr : Resampler)
    (clock : AkReal) (tb : ℚ) (idx id p : ℤ) (fr : AVFrame)
    (h : 0 ≤ fr.nb_samples) :
    (fr.nb_samples * 90).tdiv 100 ≤ (convert s swr clock tb idx id p fr).wantedSamples ∧
      (convert s swr clock tb idx id p fr).wantedSamples ≤ (fr.nb_samples * 110).tdiv 100 := by
  rw [convert_wantedSamples_eq]
  exact syncAudio_wanted_bounds _ _ _ _ _ h

/-- C2, witness: a concrete convert call whose wantedSamples respects the
integer clamp bounds 921 and 1126. -/
theorem wantedSamples_clamp_bounds_witness :
    (scenarioFrame.nb_samples * 90).tdiv 100 ≤
        (convert (AudioStream.mkState audioDiffAvgCoefVal) Resampler.allOk
          (.val 1) 1 0 0 0 scenarioFrame).wantedSamples ∧
      (convert (AudioStream.mkState audioDiffAvgCoefVal) Resampler.allOk
          (.val 1) 1 0 0 0 scenarioFrame).wantedSamples ≤
        (scenarioFrame.nb_samples * 110).tdiv 100 :=
  wantedSamples_clamp_bounds _ _ _ _ _ _ _ _ (by decide)

/-- C3.  A NaN diff (the clock reads NaN) resets audioDiffAvgCount and
audioDiffCum to 0 and does not write the Global Clock, yet m_clockDiff
still records the NaN diff; a finite diff at or above the 10 s threshold
does write the clock. -/
theorem nan_diff_resets_history_not_clock (s : AudioStreamState)
    (swr : Resampler) (tb : ℚ) (idx id p : ℤ) (fr : AVFrame) (c : ℚ)
    (hc : AV_NOSYNC_THRESHOLD ≤ |(p : ℚ) * tb - c|) :
    (convert s swr .nan tb idx id p fr).state.audioDiffAvgCount = 0 ∧
    (convert s swr .nan tb idx id p fr).state.audioDiffCum = 0 ∧
    (convert s swr .nan tb idx id p fr).clockWrite = none ∧
    (convert s swr .nan tb idx id p fr).state.m_clockDiff = .nan ∧
    (convert s swr (.val c) tb idx id p fr).clockWrite = some ((p : ℚ) * tb) := by
  obtain ⟨h1, h2, h3, h4, h5⟩ := convert_sync_eqs s swr .nan tb idx id p fr
  have hsub : AkReal.sub (AkReal.val ((p : ℚ) * tb)) AkReal.nan = AkReal.nan := rfl
  rw [hsub, syncAudio_nan] at h1 h2 h4 h5
  obtain ⟨g1, g2, g3, g4, g5⟩ := convert_sync_eqs s swr (.val c) tb idx id p fr
  have gsub : AkReal.sub (AkReal.val ((p : ℚ) * tb)) (AkReal.val c) =
      AkReal.val ((p : ℚ) * tb - c) := rfl
  rw [gsub, syncAudio_big s swr _ _ _ hc] at g4
  refine ⟨h2, h1, ?_, ?_, ?_⟩
  · rw [h4]; rfl
  · rw [h5]; rfl
  · rw [g4]
    simp [akAbs, AkReal.geB, hc]

/-- C3, witness: pts 0, time base 1, NaN clock for the reset half and
clock 100 for the clock-write half. -/
theorem nan_diff_resets_history_not_clock_witness :
    (convert (AudioStream.mkState audioDiffAvgCoefVal) Resampler.allOk
        .nan 1 0 0 0 scenarioFrame).state.audioDiffAvgCount = 0 ∧
    (convert (AudioStream.mkState audioDiffAvgCoefVal) Resampler.allOk
        .nan 1 0 0 0 scenarioFrame).state.audioDiffCum = 0 ∧
    (convert (AudioStream.mkState audioDiffAvgCoefVal) Resampler.allOk
        .nan 1 0 0 0 scenarioFrame).clockWrite = none ∧
    (convert (AudioStream.mkState audioDiffAvgCoefVal) Resampler.allOk
        .nan 1 0 0 0 scenarioFrame).state.m_clockDiff = .nan ∧
    (convert (AudioStream.mkState audioDiffAvgCoefVal) Resampler.allOk
        (.val 100) 1 0 0 0 scenarioFrame).clockWrite = some ((0 : ℚ) * 1) :=
  nan_diff_resets_history_not_clock _ _ _ _ _ _ _ 100 (by norm_num [AV_NOSYNC_THRESHOLD])

/-- C4.  A finite diff below the 10 s threshold with fewer than 20
accumulated measures requests no compensation, keeps wantedSamples at the
frame's sample count, and increments audioDiffAvgCount by exactly 1. -/
theorem warmup_no_compensation (s : AudioStreamState) (swr : Resampler)
    (tb : ℚ) (idx id p : ℤ) (fr : AVFrame) (c : ℚ)
    (hd : |(p : ℚ) * tb - c| < AV_NOSYNC_THRESHOLD)
    (hcount : s.audioDiffAvgCount < AUDIO_DIFF_AVG_NB) :
    (convert s swr (.val c) tb idx id p fr).compensation = none ∧
    (convert s swr (.val c) tb idx id p fr).wantedSamples = fr.nb_samples ∧
    (convert s swr (.val c) tb idx id p fr).state.audioDiffAvgCount =
      s.audioDiffAvgCount + 1 := by
  obtain ⟨h1, h2, h3, h4, h5⟩ := convert_sync_eqs s swr (.val c) tb idx id p fr
  have hw := convert_wantedSamples_eq s swr (.val c) tb idx id p fr
  have gsub : AkReal.sub (AkReal.val ((p : ℚ) * tb)) (AkReal.val c) =
      AkReal.val ((p : ℚ) * tb - c) := rfl
  rw [gsub, syncAudio_warmup s swr _ _ _ hd hcount] at h2 h3
  rw [gsub, syncAudio_warmup s swr _ _ _ hd hcount] at hw
  exact ⟨h3, hw, h2⟩

/-- C4, witness: Scenario A (pts 0, clock 0.05, fresh state) requests no
compensation and advances the count to 1. -/
theorem warmup_no_compensation_witness :
    (convert (AudioStream.mkState audioDiffAvgCoefVal) Resampler.allOk
        (.val (1/20)) 1 0 0 0 scenarioFrame).compensation = none ∧
    (convert (AudioStream.mkState audioDiffAvgCoefVal) Resampler.allOk
        (.val (1/20)) 1 0 0 0 scenarioFrame).wantedSamples = scenarioFrame.nb_samples ∧
    (convert (AudioStream.mkState audioDiffAvgCoefVal) Resampler.allOk
        (.val (1/20)) 1 0 0 0 scenarioFrame).state.audioDiffAvgCount =
      (AudioStream.mkState audioDiffAvgCoefVal).audioDiffAvgCount + 1 :=
  warmup_no_compensation _ _ _ _ _ _ _ (1/20)
    (by norm_num [AV_NOSYNC_THRESHOLD, abs_lt]) (by decide)

/-- C5.  A finite diff at or above the 10 s threshold resets the sync
history (audioDiffCum = 0, audioDiffAvgCount = 0) and hard-sets the
Global Clock to the frame's pts in seconds. -/
theorem big_diff_resets_and_sets_clock (s : AudioStreamState)
    (swr : Resampler) (tb : ℚ) (idx id p : ℤ) (fr : AVFrame) (c : ℚ)
    (hd : AV_NOSYNC_THRESHOLD ≤ |(p : ℚ) * tb - c|) :
    (convert s swr (.val c) tb idx id p fr).state.audioDiffCum = 0 ∧
    (convert s swr (.val c) tb idx id p fr).state.audioDiffAvgCount = 0 ∧
    (convert s swr (.val c) tb idx id p fr).clockWrite = some ((p : ℚ) * tb) := by
  obtain ⟨h1, h2, h3, h4, h5⟩ := convert_sync_eqs s swr (.val c) tb idx id p fr
  have gsub : AkReal.sub (AkReal.val ((p : ℚ) * tb)) (AkReal.val c) =
      AkReal.val ((p : ℚ) * tb - c) := rfl
  rw [gsub, syncAudio_big s swr _ _ _ hd] at h1 h2 h4
  refine ⟨h1, h2, ?_⟩
  rw [h4]
  simp [akAbs, AkReal.geB, hd]

/-- C5, witness: Scenario B, pts 100 s and clock 0: history reset and
clock hard-set to 100. -/
theorem big_diff_resets_and_sets_clock_witness :
    (convert (AudioStream.mkState audioDiffAvgCoefVal) Resampler.allOk
        (.val 0) 1 0 0 100 scenarioFrame).state.audioDiffCum = 0 ∧
    (convert (AudioStream.mkState audioDiffAvgCoefVal) Resampler.allOk
        (.val 0) 1 0 0 100 scenarioFrame).state.audioDiffAvgCount = 0 ∧
    (convert (AudioStream.mkState audioDiffAvgCoefVal) Resampler.allOk
        (.val 0) 1 0 0 100 scenarioFrame).clockWrite = some ((100 : ℚ) * 1) :=
  big_diff_resets_and_sets_clock _ _ _ _ _ _ _ 0
    (by norm_num [AV_NOSYNC_THRESHOLD])

theorem syncAudio_count_cases (s : AudioStreamState) (swr : Resampler)
    (diff : AkReal) (nb rate : ℤ) :
    (((!qIsNaN diff) && (akAbs diff).ltB (.val AV_NOSYNC_THRESHOLD)) = true →
      (s.audioDiffAvgCount < AUDIO_DIFF_AVG_NB →
        (syncAudio s swr diff nb rate).count = s.audioDiffAvgCount + 1) ∧
      (¬s.audioDiffAvgCount < AUDIO_DIFF_AVG_NB →
        (syncAudio s swr diff nb rate).count = s.audioDiffAvgCount)) ∧
    (((!qIsNaN diff) && (akAbs diff).ltB (.val AV_NOSYNC_THRESHOLD)) = false →
      (syncAudio s swr diff nb rate).count = 0 ∧
        (syncAudio s swr diff nb rate).cum = 0) := by
  cases diff with
  | nan =>
      constructor
      · intro h
        simp [qIsNaN] at h
      · intro _
        exact ⟨rfl, rfl⟩
  | val d =>
      constructor
      · intro h
        have hd : |d| < AV_NOSYNC_THRESHOLD := by
          simpa [qIsNaN, akAbs, AkReal.ltB] using h
        constructor
        · intro hc
          rw [syncAudio_warmup s swr d nb rate hd hc]
        · intro hc
          unfold syncAudio
          simp [qIsNaN, akAbs, AkReal.ltB, hd, hc]
          split
          · split <;> rfl
          · rfl
      · intro h
        have hd : AV_NOSYNC_THRESHOLD ≤ |d| := by
          by_contra hlt
          push_neg at hlt
          simp [qIsNaN, akAbs, AkReal.ltB, hlt] at h
        rw [syncAudio_big s swr d nb rate hd]
        exact ⟨rfl, rfl⟩

/-- C9.  Starting from a count in the range 0 to 20, one convert call keeps
the count in range; within the sync branch it increments the count by
exactly 1 when below 20 and leaves it unchanged once at 20; a NaN or
over-threshold diff resets both the count and audioDiffCum to 0. -/
theorem measurementCount_invariant (s : AudioStreamState) (swr : Resampler)
    (clock : AkReal) (tb : ℚ) (idx id p : ℤ) (fr : AVFrame)
    (h0 : 0 ≤ s.audioDiffAvgCount)
    (h20 : s.audioDiffAvgCount ≤ AUDIO_DIFF_AVG_NB) :
    (0 ≤ (convert s swr clock tb idx id p fr).state.audioDiffAvgCount ∧
      (convert s swr clock tb idx id p fr).state.audioDiffAvgCount ≤
        AUDIO_DIFF_AVG_NB) ∧
    (((!qIsNaN (AkReal.sub (.val ((p : ℚ) * tb)) clock)) &&
        (akAbs (AkReal.sub (.val ((p : ℚ) * tb)) clock)).ltB
          (.val AV_NOSYNC_THRESHOLD)) = true →
      (s.audioDiffAvgCount < AUDIO_DIFF_AVG_NB →
        (convert s swr clock tb idx id p fr).state.audioDiffAvgCount =
          s.audioDiffAvgCount + 1) ∧
      (¬s.audioDiffAvgCount < AUDIO_DIFF_AVG_NB →
        (convert s swr clock tb idx id p fr).state.audioDiffAvgCount =
          s.audioDiffAvgCount)) ∧
    (((!qIsNaN (AkReal.sub (.val ((p : ℚ) * tb)) clock)) &&
        (akAbs (AkReal.sub (.val ((p : ℚ) * tb)) clock)).ltB
          (.val AV_NOSYNC_THRESHOLD)) = false →
      (convert s swr clock tb idx id p fr).state.audioDiffAvgCount = 0 ∧
        (convert s swr clock tb idx id p fr).state.audioDiffCum = 0) := by
  obtain ⟨h1, h2, h3, h4, h5⟩ := convert_sync_eqs s swr clock tb idx id p fr
  obtain ⟨hin, hout⟩ := syncAudio_count_cases s swr
    (AkReal.sub (.val ((p : ℚ) * tb)) clock) fr.nb_samples fr.sample_rate
  rw [h1, h2]
  refine ⟨?_, hin, hout⟩
  cases hB : ((!qIsNaN (AkReal.sub (.val ((p : ℚ) * tb)) clock)) &&
      (akAbs (AkReal.sub (.val ((p : ℚ) * tb)) clock)).ltB
        (.val AV_NOSYNC_THRESHOLD)) with
  | false =>
      rw [(hout hB).1]
      exact ⟨le_refl 0, by norm_num [AUDIO_DIFF_AVG_NB]⟩
  | true =>
      by_cases hc : s.audioDiffAvgCount < AUDIO_DIFF_AVG_NB
      · rw [(hin hB).1 hc]
        omega
      · rw [(hin hB).2 hc]
        omega

/-- C9, witness: a fresh state (count 0) under a small diff ends with
count in range. -/
theorem measurementCount_invariant_witness :
    (0 ≤ (convert (AudioStream.mkState audioDiffAvgCoefVal) Resampler.allOk
        (.val 0) 1 0 0 0 scenarioFrame).state.audioDiffAvgCount ∧
      (convert (AudioStream.mkState audioDiffAvgCoefVal) Resampler.allOk
        (.val 0) 1 0 0 0 scenarioFrame).state.audioDiffAvgCount ≤
        AUDIO_DIFF_AVG_NB) ∧
    (((!qIsNaN (AkReal.sub (.val ((0 : ℚ) * 1)) (.val 0))) &&
        (akAbs (AkReal.sub (.val ((0 : ℚ) * 1)) (.val 0))).ltB
          (.val AV_NOSYNC_THRESHOLD)) = true →
      ((AudioStream.mkState audioDiffAvgCoefVal).audioDiffAvgCount <
          AUDIO_DIFF_AVG_NB →
        (convert (AudioStream.mkState audioDiffAvgCoefVal) Resampler.allOk
          (.val 0) 1 0 0 0 scenarioFrame).state.audioDiffAvgCount =
          (AudioStream.mkState audioDiffAvgCoefVal).audioDiffAvgCount + 1) ∧
      (¬(AudioStream.mkState audioDiffAvgCoefVal).audioDiffAvgCount <
          AUDIO_DIFF_AVG_NB →
        (convert (AudioStream.mkState audioDiffAvgCoefVal) Resampler.allOk
          (.val 0) 1 0 0 0 scenarioFrame).state.audioDiffAvgCount =
          (AudioStream.mkState audioDiffAvgCoefVal).audioDiffAvgCount)) ∧
    (((!qIsNaN (AkReal.sub (.val ((0 : ℚ) * 1)) (.val 0))) &&
        (akAbs (AkReal.sub (.val ((0 : ℚ) * 1)) (.val 0))).ltB
          (.val AV_NOSYNC_THRESHOLD)) = false →
      (convert (AudioStream.mkState audioDiffAvgCoefVal) Resampler.allOk
        (.val 0) 1 0 0 0 scenarioFrame).state.audioDiffAvgCount = 0 ∧
        (convert (AudioStream.mkState audioDiffAvgCoefVal) Resampler.allOk
          (.val 0) 1 0 0 0 scenarioFrame).state.audioDiffCum = 0) :=
  measurementCount_invariant _ _ _ _ _ _ _ _ (by decide) (by decide)

/-- C6.  Negotiation round-trip: the caps query keeps a supported packed
format (u8, s16, s32, flt) and falls back to flt otherwise; it keeps a
mono or stereo layout and falls back to stereo otherwise; and the
conversion target inside convert (resampler output format/layout and the
emitted packet's caps) is decided by exactly the same rule. -/
theorem negotiation_roundtrip (fmt : AVSampleFormat) (cl : ℕ) (rate : ℤ)
    (s : AudioStreamState) (swr : Resampler) (clock : AkReal) (tb : ℚ)
    (idx id p : ℤ) (fr : AVFrame) :
    (AudioStream.caps fmt cl rate).format = sampleFormatsValue
      (if sampleFormatsContains (av_get_packed_sample_fmt fmt)
        then av_get_packed_sample_fmt fmt else .flt) ∧
    (AudioStream.caps fmt cl rate).layout =
      (if channelLayoutsContains cl then channelLayoutsValue cl .clNone
        else .clStereo) ∧
    ((convert s swr clock tb idx id p fr).swrConfig.elim True (fun cfg =>
      cfg.outFormat = (if sampleFormatsContains (av_get_packed_sample_fmt fr.format)
        then av_get_packed_sample_fmt fr.format else .flt) ∧
      cfg.outLayout = (if channelLayoutsContains fr.channel_layout
        then fr.channel_layout else AV_CH_LAYOUT_STEREO))) ∧
    ((convert s swr clock tb idx id p fr).packet.elim True (fun pk =>
      pk.caps.format =
        (AudioStream.caps fr.format fr.channel_layout fr.sample_rate).format ∧
      pk.caps.layout =
        (AudioStream.caps fr.format fr.channel_layout fr.sample_rate).layout)) := by
  obtain ⟨hcfg, hpk⟩ := convert_obs s swr clock tb idx id p fr
  refine ⟨rfl, caps_layout_eq cl fmt rate, ?_, ?_⟩
  · cases hc : (convert s swr clock tb idx id p fr).swrConfig with
    | none => exact trivial
    | some cfg =>
        rw [hc] at hcfg
        exact ⟨hcfg.2.2.1, hcfg.2.2.2.1⟩
  · cases hc : (convert s swr clock tb idx id p fr).packet with
    | none => exact trivial
    | some pk =>
        rw [hc] at hpk
        refine ⟨hpk.2.2.2.2.2.2.1, ?_⟩
        rw [hpk.2.2.2.2.2.2.2, caps_layout_eq]
        by_cases h : channelLayoutsContains fr.channel_layout
        · rw [if_pos h, if_pos h]
        · rw [if_neg h, if_neg h]
          rfl

theorem convert_packet_none_of_convert_fail (s : AudioStreamState)
    (swr : Resampler) (clock : AkReal) (tb : ℚ) (idx id p : ℤ)
    (fr : AVFrame) (h : swr.convertOk = false) :
    (convert s swr clock tb idx id p fr).packet = none := by
  unfold convert
  dsimp only
  split
  · rfl
  · split
    · rfl
    · split
      · rfl
      · split
        · rfl
        · rename_i hko
          rw [h] at hko
          simp at hko

/-- C7, counterexample.  With a failing swr_convert_frame, convert returns
the null packet, yet processData still raises the frameSent notification
(and still emits the oStream signal), contradicting the claim that no
frame-produced notification is raised. -/
theorem frameSent_raised_despite_conversion_failure :
    (processData (AudioStream.mkState audioDiffAvgCoefVal) swrConvertFails
        (.val 0) 1 0 0 scenarioFrame).emitted = none ∧
    (processData (AudioStream.mkState audioDiffAvgCoefVal) swrConvertFails
        (.val 0) 1 0 0 scenarioFrame).frameSent = true ∧
    (processData (AudioStream.mkState audioDiffAvgCoefVal) swrConvertFails
        (.val 0) 1 0 0 scenarioFrame).oStreamEmitted = true := by
  refine ⟨?_, rfl, rfl⟩
  exact convert_packet_none_of_convert_fail _ _ _ _ _ _ _ _ rfl

/-- C7, amended.  When the conversion fails, no packet content is produced
(the emitted payload is the null packet), but the oStream signal and the
frameSent notification are still raised unconditionally, and processing
continues: the tracked next-expected timestamp still advances. -/
theorem conversion_failure_null_packet_still_signals (s : AudioStreamState)
    (swr : Resampler) (clock : AkReal) (tb : ℚ) (idx id : ℤ) (fr : AVFrame)
    (h : swr.convertOk = false) :
    (processData s swr clock tb idx id fr).emitted = none ∧
    (processData s swr clock tb idx id fr).oStreamEmitted = true ∧
    (processData s swr clock tb idx id fr).frameSent = true ∧
    (processData s swr clock tb idx id fr).state.m_pts =
      fr.pts.getD s.m_pts + fr.nb_samples := by
  refine ⟨?_, rfl, rfl, ?_⟩
  · exact convert_packet_none_of_convert_fail _ _ _ _ _ _ _ _ h
  · cases fr' : fr.pts <;> simp [processData, fr']

/-- C7, witness for the amended theorem at the concrete failing input. -/
theorem conversion_failure_null_packet_still_signals_witness :
    (processData (AudioStream.mkState audioDiffAvgCoefVal) swrConvertFails
        (.val 0) 1 0 0 scenarioFrame).emitted = none ∧
    (processData (AudioStream.mkState audioDiffAvgCoefVal) swrConvertFails
        (.val 0) 1 0 0 scenarioFrame).oStreamEmitted = true ∧
    (processData (AudioStream.mkState audioDiffAvgCoefVal) swrConvertFails
        (.val 0) 1 0 0 scenarioFrame).frameSent = true ∧
    (processData (AudioStream.mkState audioDiffAvgCoefVal) swrConvertFails
        (.val 0) 1 0 0 scenarioFrame).state.m_pts =
      scenarioFrame.pts.getD (AudioStream.mkState audioDiffAvgCoefVal).m_pts +
        scenarioFrame.nb_samples :=
  conversion_failure_null_packet_still_signals _ _ _ _ _ _ _ rfl

/-- C8.  Timestamp repair: the tracked next-expected timestamp starts at 0;
a frame without a pts has the tracked value substituted (so the packet
carries it); after every frame, whatever the branch or conversion outcome,
the tracked value advances to the used timestamp plus the sample count. -/
theorem timestamp_repair (coef : ℚ) (s : AudioStreamState) (swr : Resampler)
    (clock : AkReal) (tb : ℚ) (idx id : ℤ) (fr : AVFrame) :
    (AudioStream.mkState coef).m_pts = 0 ∧
    (processData s swr clock tb idx id fr).state.m_pts =
      fr.pts.getD s.m_pts + fr.nb_samples ∧
    ((processData s swr clock tb idx id fr).emitted.elim True (fun pk =>
      pk.pts = fr.pts.getD s.m_pts)) := by
  refine ⟨rfl, ?_, ?_⟩
  · cases fr' : fr.pts <;> simp [processData, fr']
  · cases fr' : fr.pts with
    | none =>
        have h := (convert_obs s swr clock tb idx id s.m_pts fr).2
        simp only [processData, fr']
        cases hp : (convert s swr clock tb idx id s.m_pts fr).packet with
        | none => exact trivial
        | some pk =>
            rw [hp] at h
            exact h.1
    | some p =>
        have h := (convert_obs s swr clock tb idx id p fr).2
        simp only [processData, fr']
        cases hp : (convert s swr clock tb idx id p fr).packet with
        | none => exact trivial
        | some pk =>
            rw [hp] at h
            exact h.1

/-- C10.  Negotiation never changes the sample rate: the resampler is
configured with input and output rates equal to the frame's sample rate,
and every emitted packet's caps carry the frame's sample rate. -/
theorem sample_rate_preserved (s : AudioStreamState) (swr : Resampler)
    (clock : AkReal) (tb : ℚ) (idx id p : ℤ) (fr : AVFrame) :
    ((convert s swr clock tb idx id p fr).swrConfig.elim True (fun cfg =>
      cfg.outRate = fr.sample_rate ∧ cfg.inRate = fr.sample_rate)) ∧
    ((convert s swr clock tb idx id p fr).packet.elim True (fun pk =>
      pk.caps.rate = fr.sample_rate)) := by
  obtain ⟨hcfg, hpk⟩ := convert_obs s swr clock tb idx id p fr
  constructor
  · cases hc : (convert s swr clock tb idx id p fr).swrConfig with
    | none => exact trivial
    | some cfg =>
        rw [hc] at hcfg
        exact ⟨hcfg.1, hcfg.2.1⟩
  · cases hc : (convert s swr clock tb idx id p fr).packet with
    | none => exact trivial
    | some pk =>
        rw [hc] at hpk
        exact hpk.2.2.2.2.1
